import Mathlib

/-!
Verification of `src/backend/embedding/server.py` (gRPC embedding server).

The server is a thin RPC façade over an external inference library
(`sentence_transformers`): it exposes three handlers (GenerateEmbeddings,
RerankPassages, HealthCheck), loads its configuration from environment
variables with defaults, binds a TLS port, and shuts down on SIGINT/SIGTERM
via a signal handler.

The external inference engine (model objects, quantization, base64, int
parsing) is represented abstractly: engine calls are `Except`-valued
functions supplied as parameters, so a fault in any step of a handler body
(the Python `try` block) appears as an `.error` result.  Handlers log the
engine calls they make (the `List (EngineCall E)` component) so that
"exactly one engine call, no retry" is expressible.
-/

namespace EmbeddingServer

/-- The gRPC status code set by the handlers; the source only ever sets
`grpc.StatusCode.INTERNAL`. -/
inductive StatusCode where
  | internal
deriving DecidableEq

/-- The servicer context of a single RPC: `context.set_code` / `context.set_details`
assign these fields.  A fresh context has neither set. -/
structure Context where
  code : Option StatusCode := none
  details : Option String := none
deriving DecidableEq

/-- Proto message `EmbeddingRequest { repeated string texts }`. -/
structure EmbeddingRequest where
  texts : List String
deriving DecidableEq

/-- Proto message `EmbeddingResponse { repeated bytes embeddings }`;
the byte type `B` is abstract (numpy `tobytes` output). -/
structure EmbeddingResponse (B : Type) where
  embeddings : List B := []
deriving DecidableEq

/-- Proto message `RerankingRequest { string query; repeated string passages }`. -/
structure RerankingRequest where
  query : String
  passages : List String
deriving DecidableEq

/-- Proto message `RerankingResponse { repeated float scores }`; the score
type `S` is abstract (the engine's floating-point scores). -/
structure RerankingResponse (S : Type) where
  scores : List S := []
deriving DecidableEq

/-- Proto message `HealthCheckRequest` (no fields used by the handler). -/
inductive HealthCheckRequest where
  | mk
deriving DecidableEq

/-- Proto message `HealthCheckResponse { string status }`. -/
structure HealthCheckResponse where
  status : String
deriving DecidableEq

/-- The external `SentenceTransformer` model handle: `model.encode(texts)`
returns one embedding (of abstract type `E`) per text, or raises. -/
structure SentenceTransformerModel (E : Type) where
  encode : List String → Except String (List E)

/-- The external `CrossEncoder` reranker handle: `reranker.predict(pairs)`
returns one score (of abstract type `S`) per (query, passage) pair, or raises. -/
structure CrossEncoderModel (S : Type) where
  predict : List (String × String) → Except String (List S)

/-- The servicer state (`EmbeddingServiceServicer.__init__` sets `self.model`
and `self.reranker` once at startup; no handler ever assigns to them). -/
structure Servicer (E S : Type) where
  model : SentenceTransformerModel E
  reranker : CrossEncoderModel S

/-- A record of one call into the external inference library, used to state
that handlers invoke each capability exactly once (no retry). -/
inductive EngineCall (E : Type) where
  | encode (texts : List String)
  | quantize (embeddings : List E)
  | predict (pairs : List (String × String))

/-- Number of `model.encode` calls in a call log. -/
def countEncode {E : Type} : List (EngineCall E) → Nat
  | [] => 0
  | .encode _ :: rest => countEncode rest + 1
  | _ :: rest => countEncode rest

/-- Number of `reranker.predict` calls in a call log. -/
def countPredict {E : Type} : List (EngineCall E) → Nat
  | [] => 0
  | .predict _ :: rest => countPredict rest + 1
  | _ :: rest => countPredict rest

/-- Translation of `EmbeddingServiceServicer.GenerateEmbeddings`
(server.py lines 62-86).  `quantize_embeddings` (the library call with
`precision='ubinary'`) and `tobytes` (numpy serialization) are external
capabilities passed in.  The `try` body extracts the texts, encodes them,
quantizes, and serializes each row in order; the `except` branch returns an
empty response and sets `INTERNAL` plus a detail string on the context.
The result also carries the engine-call log and the (unchanged) servicer. -/
def GenerateEmbeddings {E Q B S : Type}
    (quantize_embeddings : List E → Except String (List Q)) (tobytes : Q → B)
    (self : Servicer E S) (request : EmbeddingRequest) (context : Context) :
    (EmbeddingResponse B × Context × List (EngineCall E)) × Servicer E S :=
  let texts := request.texts
  match self.model.encode texts with
  | .error e =>
      ((⟨[]⟩,
        { context with code := some .internal,
                       details := some ("Error generating embeddings: " ++ e) },
        [.encode texts]), self)
  | .ok embeddings =>
      match quantize_embeddings embeddings with
      | .error e =>
          ((⟨[]⟩,
            { context with code := some .internal,
                           details := some ("Error generating embeddings: " ++ e) },
            [.encode texts, .quantize embeddings]), self)
      | .ok quantized =>
          ((⟨quantized.map tobytes⟩, context,
            [.encode texts, .quantize embeddings]), self)

/-- The `try`-block pipeline of `GenerateEmbeddings` up to serialization:
encode, then quantize.  An `.error` here is exactly the situation in which
the handler takes its `except` branch. -/
def embedPipeline {E Q S : Type}
    (quantize_embeddings : List E → Except String (List Q))
    (self : Servicer E S) (texts : List String) : Except String (List Q) :=
  match self.model.encode texts with
  | .error e => .error e
  | .ok embeddings => quantize_embeddings embeddings

/-- Translation of `EmbeddingServiceServicer.RerankPassages`
(server.py lines 87-110): pairs the query with each passage in order,
scores the pairs in one `reranker.predict` call, and returns the scores;
the `except` branch returns an empty response and sets `INTERNAL` plus a
detail string. -/
def RerankPassages {E S : Type}
    (self : Servicer E S) (request : RerankingRequest) (context : Context) :
    (RerankingResponse S × Context × List (EngineCall E)) × Servicer E S :=
  let query := request.query
  let passages := request.passages
  let input_pairs := passages.map (fun passage => (query, passage))
  match self.reranker.predict input_pairs with
  | .error e =>
      ((⟨[]⟩,
        { context with code := some .internal,
                       details := some ("Error reranking passages: " ++ e) },
        [.predict input_pairs]), self)
  | .ok scores =>
      ((⟨scores⟩, context, [.predict input_pairs]), self)

/-- Translation of `EmbeddingServiceServicer.HealthCheck`
(server.py lines 112-113): unconditionally returns `status="healthy"`,
touches neither the context nor the engine. -/
def HealthCheck {E S : Type}
    (self : Servicer E S) (_request : HealthCheckRequest) (context : Context) :
    (HealthCheckResponse × Context × List (EngineCall E)) × Servicer E S :=
  ((⟨"healthy"⟩, context, []), self)

/-- The environment variables read at module load (server.py lines 26-32);
`none` models an unset variable. -/
structure Env where
  EMBEDDING_MODEL_NAME : Option String := none
  EMBEDDING_RERANKER : Option String := none
  EMBEDDING_PORT : Option String := none
  EMBEDDING_MAX_WORKERS : Option String := none
  EMBEDDING_GRACEFUL_SHUTDOWN_TIMEOUT : Option String := none
  EMBEDDING_CRT : Option String := none
  EMBEDDING_KEY : Option String := none
deriving DecidableEq

/-- Python `os.getenv(name, default)`: the value when set, else the default. -/
def getenv (value : Option String) (default : String) : String :=
  value.getD default

/-- Decimal value of a digit character, `none` for a non-digit. -/
def digitVal (c : Char) : Option Nat :=
  if '0' ≤ c ∧ c ≤ '9' then some (c.toNat - 48) else none

/-- Left-to-right accumulation of decimal digits. -/
def parseDigitsAux : List Char → Nat → Option Nat
  | [], acc => some acc
  | c :: rest, acc =>
      match digitVal c with
      | some d => parseDigitsAux rest (acc * 10 + d)
      | none => none

/-- A non-empty all-digit character list as a natural number. -/
def parseDigits : List Char → Option Nat
  | [] => none
  | l => parseDigitsAux l 0

/-- Python `int(s)` on a decimal string literal (optionally signed): the
parsed integer, or a raised `ValueError` (modelled as `.error`). -/
def pyInt (s : String) : Except String Int :=
  match s.data with
  | '-' :: rest =>
      match parseDigits rest with
      | some n => .ok (-(n : Int))
      | none => .error ("invalid literal for int: " ++ s)
  | l =>
      match parseDigits l with
      | some n => .ok (n : Int)
      | none => .error ("invalid literal for int: " ++ s)

/-- The module-level configuration values (server.py lines 26-32). -/
structure Config where
  MODEL_NAME : String
  RERANKER_MODEL_NAME : String
  GRPC_PORT : String
  MAX_WORKERS : Int
  GRACEFUL_SHUTDOWN_TIMEOUT : Int
  EMBEDDING_CRT : String
  EMBEDDING_KEY : String
deriving DecidableEq

/-- Evaluation of the module-level configuration block (server.py lines
26-32): every `os.getenv` carries a default, and the two numeric values are
parsed with `int(...)` (which can raise on a malformed set value). -/
def loadConfig (env : Env) : Except String Config :=
  match pyInt (getenv env.EMBEDDING_MAX_WORKERS "10"),
        pyInt (getenv env.EMBEDDING_GRACEFUL_SHUTDOWN_TIMEOUT "30") with
  | .ok mw, .ok gt =>
      .ok { MODEL_NAME :=
              getenv env.EMBEDDING_MODEL_NAME
                "sentence-transformers/static-retrieval-mrl-en-v1"
            RERANKER_MODEL_NAME :=
              getenv env.EMBEDDING_RERANKER "cross-encoder/ms-marco-MiniLM-L6-v2"
            GRPC_PORT := getenv env.EMBEDDING_PORT ""
            MAX_WORKERS := mw
            GRACEFUL_SHUTDOWN_TIMEOUT := gt
            EMBEDDING_CRT := getenv env.EMBEDDING_CRT ""
            EMBEDDING_KEY := getenv env.EMBEDDING_KEY "" }
  | .error e, _ => .error e
  | _, .error e => .error e

/-- Value of a character in the standard base64 alphabet, `none` otherwise
(non-alphabet characters, including `=` padding, are discarded before
decoding, as `base64.b64decode` does with `validate=False`). -/
def b64val (c : Char) : Option Nat :=
  if 'A' ≤ c ∧ c ≤ 'Z' then some (c.toNat - 65)
  else if 'a' ≤ c ∧ c ≤ 'z' then some (c.toNat - 97 + 26)
  else if '0' ≤ c ∧ c ≤ '9' then some (c.toNat - 48 + 52)
  else if c = '+' then some 62
  else if c = '/' then some 63
  else none

/-- Decoding of a list of 6-bit values into bytes, group by group; a single
leftover value cannot occur in well-padded input and raises. -/
def b64chunks : List Nat → Except String (List Nat)
  | [] => .ok []
  | [_] => .error "Invalid base64-encoded string"
  | [a, b] => .ok [(a * 4 + b / 16) % 256]
  | [a, b, c] => .ok [(a * 4 + b / 16) % 256, ((b % 16) * 16 + c / 4) % 256]
  | a :: b :: c :: d :: rest => do
      let tail ← b64chunks rest
      .ok ((a * 4 + b / 16) % 256 :: ((b % 16) * 16 + c / 4) % 256 ::
           ((c % 4) * 64 + d) % 256 :: tail)

/-- The external `base64.b64decode` on the encoded certificate/key strings:
in particular the empty string decodes to the empty byte string. -/
def b64decode (s : String) : Except String (List Nat) :=
  b64chunks (s.data.filterMap b64val)

/-- The transport a gRPC server port can be bound with: `add_insecure_port`
(plaintext) or `add_secure_port` with SSL credentials built from a
certificate/key byte pair. -/
inductive Transport where
  | plaintext
  | tls (cert key : List Nat)
deriving DecidableEq

/-- The listen address built at server.py line 144: the f-string
`f'[::]{GRPC_PORT}'`, plain concatenation with no separator. -/
def bindAddress (port : String) : String :=
  "[::]" ++ port

/-- The transport-setup portion of `serve()` (server.py lines 136-144):
base64-decode the configured certificate and key, build SSL server
credentials from them, and bind the secure port at `bindAddress`.  There is
no branch that calls `add_insecure_port`. -/
def serveBind (cfg : Config) : Except String (Transport × String) :=
  match b64decode cfg.EMBEDDING_CRT with
  | .error e => .error e
  | .ok server_cert =>
      match b64decode cfg.EMBEDDING_KEY with
      | .error e => .error e
      | .ok server_key =>
          .ok (Transport.tls server_cert server_key, bindAddress cfg.GRPC_PORT)

/-- Observable state of the running server process once `serve()` has
started it: how many times `server.stop` ran, the grace deadline set by the
most recent `stop(grace)`, how many times `graceful_shutdown` was entered,
and whether `sys.exit` has terminated the process (with which status). -/
structure ServeState where
  shutdownEntries : Nat := 0
  stopCalls : Nat := 0
  graceDeadline : Option Int := none
  exited : Bool := false
  exitCode : Option Int := none
deriving DecidableEq

/-- The call `sys.exit(0)` (server.py line 156). -/
def sysExit0 (s : ServeState) : ServeState :=
  { s with exited := true, exitCode := some 0 }

/-- The body of `graceful_shutdown` up to and including
`server.stop(GRACEFUL_SHUTDOWN_TIMEOUT)` (server.py lines 150-154): the
handler is entered unconditionally — there is no flag guarding against a
shutdown already in progress — and `stop` records a fresh grace deadline. -/
def gracefulShutdownStop (timeout now : Int) (s : ServeState) : ServeState :=
  { s with shutdownEntries := s.shutdownEntries + 1,
           stopCalls := s.stopCalls + 1,
           graceDeadline := some (now + timeout) }

/-- Delivery of a sequence of SIGTERM/SIGINT signals to the running process.
Each delivery is `(now, preempt)`: `now` is the delivery time and `preempt`
records the interpreter-level interleaving — when true, the next signal in
the list is delivered after this handler's `server.stop` line but before
its `sys.exit(0)` takes effect (CPython runs signal handlers between
bytecodes, so a handler can be re-entered this way).  Once the process has
exited, later deliveries do nothing.  `graceful_shutdown` is installed for
both SIGTERM and SIGINT (lines 159-160) and contains no one-shot guard. -/
def runSignals (timeout : Int) : List (Int × Bool) → ServeState → ServeState
  | [], s => s
  | (now, preempt) :: rest, s =>
      if s.exited then runSignals timeout rest s
      else
        let s1 := gracefulShutdownStop timeout now s
        if preempt then
          let s2 := runSignals timeout rest s1
          if s2.exited then s2 else sysExit0 s2
        else
          runSignals timeout rest (sysExit0 s1)

/-- Observable outcome of one run of the `__main__` block. -/
structure ProcessOutcome where
  exitCode : Option Int := none
  loggedLoadFailure : Bool := false
  preloadCalls : Nat := 0
  initLoadCalls : Nat := 0
  serverStarted : Bool := false
deriving DecidableEq

/-- The `__main__` sequence (server.py lines 164-167) over the module-level
configuration: evaluate the configuration block, run
`download_model_if_needed` (one model-load attempt, `preload`), then
`serve()`: construct the servicer (a second load attempt, `initLoad`), set
up the transport, start the server, install the signal handlers and block
in `wait_for_termination` while signals drive the shutdown.  A raised load
failure is logged and propagates uncaught, terminating the interpreter with
status 1; nothing retries it and the server never starts.  An uncaught
transport-setup failure also terminates with status 1. -/
def mainRun (preload initLoad : Except String Unit) (env : Env)
    (sigs : List (Int × Bool)) : ProcessOutcome :=
  match loadConfig env with
  | .error _ => { exitCode := some 1 }
  | .ok cfg =>
      match preload with
      | .error _ =>
          { exitCode := some 1, loggedLoadFailure := true, preloadCalls := 1 }
      | .ok _ =>
          match initLoad with
          | .error _ =>
              { exitCode := some 1, loggedLoadFailure := true,
                preloadCalls := 1, initLoadCalls := 1 }
          | .ok _ =>
              match serveBind cfg with
              | .error _ =>
                  { exitCode := some 1, preloadCalls := 1, initLoadCalls := 1 }
              | .ok _ =>
                  let final := runSignals cfg.GRACEFUL_SHUTDOWN_TIMEOUT sigs {}
                  { exitCode := if final.exited then final.exitCode else none,
                    preloadCalls := 1, initLoadCalls := 1, serverStarted := true }

/-- The environment with every variable unset. -/
def defaultEnv : Env := {}

/-- The configuration produced when every environment variable is unset
(the documented defaults of server.py lines 26-32). -/
def defaultConfig : Config :=
  { MODEL_NAME := "sentence-transformers/static-retrieval-mrl-en-v1"
    RERANKER_MODEL_NAME := "cross-encoder/ms-marco-MiniLM-L6-v2"
    GRPC_PORT := ""
    MAX_WORKERS := 10
    GRACEFUL_SHUTDOWN_TIMEOUT := 30
    EMBEDDING_CRT := ""
    EMBEDDING_KEY := "" }

theorem loadConfig_defaultEnv : loadConfig defaultEnv = .ok defaultConfig := by
  rfl

/-- Claim C1: for every non-empty input batch, a successful
GenerateEmbeddings call returns exactly `len(texts)` byte-vectors, and the
i-th output is the serialized quantization of the engine's encoding of the
i-th input text (input ordering preserved).  The engine's batch contract is
the hypothesis that `model.encode` returns the per-text encodings in order
and that quantization is row-wise. -/
theorem generateEmbeddings_preserves_order {E Q B S : Type}
    (quantize_embeddings : List E → Except String (List Q)) (tobytes : Q → B)
    (self : Servicer E S) (request : EmbeddingRequest) (context : Context)
    (enc1 : String → E) (quant1 : E → Q)
    (_hne : request.texts ≠ [])
    (henc : self.model.encode request.texts = .ok (request.texts.map enc1))
    (hquant : quantize_embeddings (request.texts.map enc1) =
      .ok ((request.texts.map enc1).map quant1)) :
    ((GenerateEmbeddings quantize_embeddings tobytes self request
        context).1.1).embeddings.length = request.texts.length ∧
      ∀ (i : Nat) (t : String), request.texts[i]? = some t →
        ((GenerateEmbeddings quantize_embeddings tobytes self request
            context).1.1).embeddings[i]? = some (tobytes (quant1 (enc1 t))) := by
  have hresp : (GenerateEmbeddings quantize_embeddings tobytes self request
      context).1.1 = ⟨((request.texts.map enc1).map quant1).map tobytes⟩ := by
    simp only [GenerateEmbeddings, henc, hquant]
  rw [hresp]
  refine ⟨by simp, ?_⟩
  intro i t ht
  simp [List.getElem?_map, ht]

theorem generateEmbeddings_preserves_order_instance :
    ((GenerateEmbeddings (E := Nat) (Q := Nat) (B := Nat) (S := Nat)
        (fun es => .ok (es.map (· + 1))) (· * 2)
        ⟨⟨fun ts => .ok (ts.map String.length)⟩,
         ⟨fun ps => .ok (ps.map fun _ => 0)⟩⟩
        ⟨["hello", "world"]⟩ {}).1.1).embeddings.length = 2 := by
  have h := generateEmbeddings_preserves_order
    (fun es => .ok (es.map (· + 1))) (· * 2)
    ⟨⟨fun ts => .ok (ts.map String.length)⟩,
     ⟨fun ps => .ok (ps.map fun _ => 0)⟩⟩
    ⟨["hello", "world"]⟩ {} String.length (· + 1)
    (by decide) rfl rfl
  simpa using h.1

/-- Claim C2: a successful RerankPassages call returns exactly
`len(passages)` scores in passage order, the i-th being the engine's score
for the pair (query, passages[i]); the same query is paired with each
passage.  The engine contract is the hypothesis that `reranker.predict`
scores the pairs position-wise. -/
theorem rerankPassages_scores_aligned {E S : Type}
    (self : Servicer E S) (request : RerankingRequest) (context : Context)
    (score1 : String × String → S)
    (hpred : self.reranker.predict
        (request.passages.map fun passage => (request.query, passage)) =
      .ok ((request.passages.map fun passage =>
        (request.query, passage)).map score1)) :
    ((RerankPassages self request context).1.1).scores.length =
        request.passages.length ∧
      ∀ (i : Nat) (p : String), request.passages[i]? = some p →
        ((RerankPassages self request context).1.1).scores[i]? =
          some (score1 (request.query, p)) := by
  have hresp : (RerankPassages self request context).1.1 =
      ⟨(request.passages.map fun passage =>
        (request.query, passage)).map score1⟩ := by
    simp only [RerankPassages, hpred]
  rw [hresp]
  refine ⟨by simp, ?_⟩
  intro i p hp
  simp [List.getElem?_map, hp]

theorem rerankPassages_scores_aligned_instance :
    ((RerankPassages (E := Nat) (S := Nat)
        ⟨⟨fun ts => .ok (ts.map fun _ => 0)⟩,
         ⟨fun ps => .ok (ps.map fun pr => pr.2.length)⟩⟩
        ⟨"cat", ["a cat sat", "a dog ran"]⟩ {}).1.1).scores.length = 2 := by
  have h := rerankPassages_scores_aligned
    ⟨⟨fun ts => .ok (ts.map fun _ => 0)⟩,
     ⟨fun ps => .ok (ps.map fun pr => pr.2.length)⟩⟩
    ⟨"cat", ["a cat sat", "a dog ran"]⟩ {} (fun pr => pr.2.length) rfl
  simpa using h.1

/-- Claim C7: HealthCheck always succeeds with the fixed status "healthy",
signals no error (the context is untouched), makes no engine call, and its
reply does not depend on the servicer (it never consults the engine). -/
theorem healthCheck_always_healthy {E S : Type} (self other : Servicer E S)
    (request : HealthCheckRequest) (context : Context) :
    ((HealthCheck self request context).1.1).status = "healthy" ∧
      (HealthCheck self request context).1.2.1 = context ∧
      (HealthCheck self request context).1.2.2 = ([] : List (EngineCall E)) ∧
      (HealthCheck self request context).1 = (HealthCheck other request context).1 :=
  ⟨rfl, rfl, rfl, rfl⟩

/-- Claim C9: every handler invocation, on both its success and its error
branch, returns the servicer state (the loaded model and reranker handles)
unchanged; no handler mutates `self`. -/
theorem handlers_preserve_servicer_state {E Q B S : Type}
    (quantize_embeddings : List E → Except String (List Q)) (tobytes : Q → B)
    (self : Servicer E S) (ereq : EmbeddingRequest) (rreq : RerankingRequest)
    (hreq : HealthCheckRequest) (c1 c2 c3 : Context) :
    (GenerateEmbeddings quantize_embeddings tobytes self ereq c1).2 = self ∧
      (RerankPassages self rreq c2).2 = self ∧
      (HealthCheck self hreq c3).2 = self := by
  refine ⟨?_, ?_, rfl⟩
  · simp only [GenerateEmbeddings]
    split
    · rfl
    · split <;> rfl
  · simp only [RerankPassages]
    split <;> rfl

/-- Claim C10: the bind target is the literal `[::]` concatenated with
`GRPC_PORT` with no separator inserted; when `EMBEDDING_PORT` is unset the
port defaults to the empty string and the target is exactly `[::]`, so any
`:` separator must come from the port value itself. -/
theorem bind_address_concatenation (env : Env) (cfg : Config)
    (hcfg : loadConfig env = .ok cfg) (hport : env.EMBEDDING_PORT = none) :
    cfg.GRPC_PORT = "" ∧ bindAddress cfg.GRPC_PORT = "[::]" ∧
      (∀ p : String, bindAddress p = "[::]" ++ p) ∧
      (∀ p : String, (bindAddress p).data.drop 4 = p.data) := by
  have hp : cfg.GRPC_PORT = "" := by
    unfold loadConfig at hcfg
    split at hcfg
    · obtain rfl := (Except.ok.injEq _ _).mp hcfg
      simp [getenv, hport]
    · exact Except.noConfusion hcfg
    · exact Except.noConfusion hcfg
  refine ⟨hp, ?_, fun p => rfl, ?_⟩
  · rw [hp]
    decide
  · intro p
    obtain ⟨l⟩ := p
    rfl

theorem bind_address_concatenation_instance :
    defaultConfig.GRPC_PORT = "" ∧ bindAddress defaultConfig.GRPC_PORT = "[::]" := by
  have h := bind_address_concatenation defaultEnv defaultConfig
    loadConfig_defaultEnv rfl
  exact ⟨h.1, h.2.1⟩

/-- Claim C3: when any step of a handler body raises an internal fault (the
`try`-block pipeline produces an error), GenerateEmbeddings returns zero
embeddings and RerankPassages returns zero scores, each sets the `Internal`
error kind with a human-readable detail string on the context, and each
invokes the engine capability exactly once (no retry). -/
theorem handlers_internal_error_contract {E Q B S : Type}
    (quantize_embeddings : List E → Except String (List Q)) (tobytes : Q → B)
    (self : Servicer E S) (ereq : EmbeddingRequest) (rreq : RerankingRequest)
    (c1 c2 : Context) (eE eR : String)
    (hE : embedPipeline quantize_embeddings self ereq.texts = .error eE)
    (hR : self.reranker.predict
        (rreq.passages.map fun passage => (rreq.query, passage)) = .error eR) :
    (((GenerateEmbeddings quantize_embeddings tobytes self ereq c1).1.1).embeddings
        = [] ∧
      ((GenerateEmbeddings quantize_embeddings tobytes self ereq c1).1.2.1).code
        = some .internal ∧
      ((GenerateEmbeddings quantize_embeddings tobytes self ereq
          c1).1.2.1).details = some ("Error generating embeddings: " ++ eE) ∧
      countEncode
        ((GenerateEmbeddings quantize_embeddings tobytes self ereq c1).1.2.2)
        = 1) ∧
    (((RerankPassages self rreq c2).1.1).scores = [] ∧
      ((RerankPassages self rreq c2).1.2.1).code = some .internal ∧
      ((RerankPassages self rreq c2).1.2.1).details
        = some ("Error reranking passages: " ++ eR) ∧
      countPredict ((RerankPassages self rreq c2).1.2.2) = 1) := by
  constructor
  · cases henc : self.model.encode ereq.texts with
    | error e =>
        have he : e = eE := by
          simp only [embedPipeline, henc, Except.error.injEq] at hE
          exact hE
        subst he
        simp [GenerateEmbeddings, henc, countEncode]
    | ok embeddings =>
        cases hq : quantize_embeddings embeddings with
        | error e =>
            have he : e = eE := by
              simp only [embedPipeline, henc, hq, Except.error.injEq] at hE
              exact hE
            subst he
            simp [GenerateEmbeddings, henc, hq, countEncode]
        | ok quantized =>
            exfalso
            simp only [embedPipeline, henc, hq] at hE
            exact Except.noConfusion hE
  · simp [RerankPassages, hR, countPredict]

theorem handlers_internal_error_contract_instance :
    ((GenerateEmbeddings (E := Nat) (Q := Nat) (B := Nat) (S := Nat)
        (fun _ => .error "quantizer down") (· * 2)
        ⟨⟨fun _ => .error "engine down"⟩, ⟨fun _ => .error "reranker down"⟩⟩
        ⟨["hello"]⟩ {}).1.2.1).code = some StatusCode.internal ∧
      ((RerankPassages (E := Nat) (S := Nat)
        ⟨⟨fun _ => .error "engine down"⟩, ⟨fun _ => .error "reranker down"⟩⟩
        ⟨"q", ["p"]⟩ {}).1.1).scores = [] := by
  have h := handlers_internal_error_contract
    (E := Nat) (Q := Nat) (B := Nat) (S := Nat)
    (fun _ => .error "quantizer down") (· * 2)
    ⟨⟨fun _ => .error "engine down"⟩, ⟨fun _ => .error "reranker down"⟩⟩
    ⟨["hello"]⟩ ⟨"q", ["p"]⟩ {} {} "engine down" "reranker down" rfl rfl
  exact ⟨h.1.2.1, h.2.1⟩

/-- Claim C4 evaluation: when a second termination signal is delivered
while the first `graceful_shutdown` invocation is between its
`server.stop` line and its `sys.exit(0)`, the handler is entered a second
time, `server.stop` runs twice, and the grace deadline set at the first
delivery (0 + 30) is overwritten by the second (5 + 30): the shutdown
sequence is re-entered and the deadline timer restarted, because the
handler has no one-shot guard. -/
theorem graceful_shutdown_reentered_on_second_signal :
    runSignals 30 [(0, true), (5, false)] {} =
      { shutdownEntries := 2, stopCalls := 2, graceDeadline := some 35,
        exited := true, exitCode := some 0 } := by
  rfl

/-- Claim C5 counterexample: there is no configuration under which `serve`
binds a plaintext port — the transport-setup code unconditionally builds
SSL credentials and calls `add_secure_port`; no plaintext branch exists. -/
theorem serve_no_plaintext_mode :
    ¬ ∃ (cfg : Config) (t : Transport) (addr : String),
        serveBind cfg = Except.ok (t, addr) ∧ t = Transport.plaintext := by
  rintro ⟨cfg, t, addr, hbind, rfl⟩
  unfold serveBind at hbind
  split at hbind
  · exact Except.noConfusion hbind
  · split at hbind
    · exact Except.noConfusion hbind
    · simp at hbind

/-- Claim C5 amended: `serve` supports exactly one transport mode — TLS
with a certificate/key pair base64-decoded from the configuration values —
and every successful bind is a secure bind on the concatenated address. -/
theorem serve_always_tls (cfg : Config) (t : Transport) (addr : String)
    (hbind : serveBind cfg = Except.ok (t, addr)) :
    (∃ cert key, t = Transport.tls cert key) ∧
      addr = bindAddress cfg.GRPC_PORT := by
  unfold serveBind at hbind
  split at hbind
  · exact Except.noConfusion hbind
  · split at hbind
    · exact Except.noConfusion hbind
    · simp only [Except.ok.injEq, Prod.mk.injEq] at hbind
      obtain ⟨h1, h2⟩ := hbind
      exact ⟨⟨_, _, h1.symm⟩, h2.symm⟩

theorem serve_always_tls_instance :
    (∃ cert key, Transport.tls ([] : List Nat) ([] : List Nat) =
        Transport.tls cert key) ∧
      "[::]" = bindAddress defaultConfig.GRPC_PORT :=
  serve_always_tls defaultConfig (Transport.tls [] []) "[::]" rfl

theorem runSignals_exitCode (timeout : Int) (sigs : List (Int × Bool))
    (s : ServeState) (h : s.exited = true → s.exitCode = some 0) :
    (runSignals timeout sigs s).exited = true →
      (runSignals timeout sigs s).exitCode = some 0 := by
  induction sigs generalizing s with
  | nil => exact h
  | cons ev rest ih =>
      obtain ⟨now, preempt⟩ := ev
      simp only [runSignals]
      by_cases hex : s.exited
      · simp only [hex, if_true]
        exact ih s h
      · simp only [hex, Bool.false_eq_true, if_false]
        have hs1 : (gracefulShutdownStop timeout now s).exited = true →
            (gracefulShutdownStop timeout now s).exitCode = some 0 := by
          intro hh
          exact absurd hh (by simp [gracefulShutdownStop, hex])
        cases preempt with
        | true =>
            simp only [if_true]
            by_cases h2 : (runSignals timeout rest
                (gracefulShutdownStop timeout now s)).exited
            · simp only [h2, if_true]
              exact fun _ => ih _ hs1 h2
            · simp only [h2, Bool.false_eq_true, if_false]
              intro _
              rfl
        | false =>
            simp only [Bool.false_eq_true, if_false]
            exact fun hh => ih _ (fun _ => rfl) hh

/-- Claim C6: the process exits with status 0 on every graceful shutdown
(the signal handler always calls `sys.exit(0)`, whether or not in-flight
work finished before the grace deadline), and with a non-zero status when
the model or the reranker fails to load at startup; a load failure is
logged, the failed load is not retried, and the server never starts
accepting connections. -/
theorem main_exit_codes (preload initLoad : Except String Unit) (env : Env)
    (cfg : Config) (sigs : List (Int × Bool))
    (hcfg : loadConfig env = .ok cfg) :
    ((∃ e, preload = .error e) →
        mainRun preload initLoad env sigs =
          { exitCode := some 1, loggedLoadFailure := true, preloadCalls := 1,
            initLoadCalls := 0, serverStarted := false }) ∧
    ((preload = .ok () ∧ ∃ e, initLoad = .error e) →
        mainRun preload initLoad env sigs =
          { exitCode := some 1, loggedLoadFailure := true, preloadCalls := 1,
            initLoadCalls := 1, serverStarted := false }) ∧
    (∀ t addr, preload = .ok () → initLoad = .ok () →
        serveBind cfg = .ok (t, addr) →
        (runSignals cfg.GRACEFUL_SHUTDOWN_TIMEOUT sigs {}).exited = true →
        (mainRun preload initLoad env sigs).exitCode = some 0 ∧
          (mainRun preload initLoad env sigs).serverStarted = true) := by
  refine ⟨?_, ?_, ?_⟩
  · rintro ⟨e, rfl⟩
    simp [mainRun, hcfg]
  · rintro ⟨rfl, e, rfl⟩
    simp [mainRun, hcfg]
  · intro t addr hpre hinit hb hexit
    subst hpre
    subst hinit
    have h0 : (runSignals cfg.GRACEFUL_SHUTDOWN_TIMEOUT sigs {}).exitCode
        = some 0 :=
      runSignals_exitCode cfg.GRACEFUL_SHUTDOWN_TIMEOUT sigs {}
        (fun hh => absurd hh (by simp)) hexit
    constructor
    · simp [mainRun, hcfg, hb, hexit, h0]
    · simp [mainRun, hcfg, hb]

theorem main_exit_codes_instance :
    mainRun (Except.error "load failed") (Except.ok ()) defaultEnv [] =
      { exitCode := some 1, loggedLoadFailure := true, preloadCalls := 1,
        initLoadCalls := 0, serverStarted := false } :=
  (main_exit_codes (Except.error "load failed") (Except.ok ()) defaultEnv
    defaultConfig [] loadConfig_defaultEnv).1 ⟨"load failed", rfl⟩

/-- Claim C8: every configuration value is optional.  For every environment
— provided the values that are set parse (the numeric ones as integers, the
TLS ones as base64, which is all the source itself requires of them) — the
configuration block evaluates successfully, every unset variable takes its
documented default (worker pool 10, grace deadline 30, empty port and TLS
material, the two model identifiers), and the startup sequence reaches the
started server. -/
theorem config_defaults_optional (env : Env)
    (hmw : ∀ s, env.EMBEDDING_MAX_WORKERS = some s → ∃ n, pyInt s = .ok n)
    (hgt : ∀ s, env.EMBEDDING_GRACEFUL_SHUTDOWN_TIMEOUT = some s →
      ∃ n, pyInt s = .ok n)
    (hcrt : ∀ s, env.EMBEDDING_CRT = some s → ∃ bs, b64decode s = .ok bs)
    (hkey : ∀ s, env.EMBEDDING_KEY = some s → ∃ bs, b64decode s = .ok bs) :
    ∃ cfg, loadConfig env = .ok cfg ∧
      (env.EMBEDDING_MODEL_NAME = none →
        cfg.MODEL_NAME = "sentence-transformers/static-retrieval-mrl-en-v1") ∧
      (env.EMBEDDING_RERANKER = none →
        cfg.RERANKER_MODEL_NAME = "cross-encoder/ms-marco-MiniLM-L6-v2") ∧
      (env.EMBEDDING_PORT = none → cfg.GRPC_PORT = "") ∧
      (env.EMBEDDING_MAX_WORKERS = none → cfg.MAX_WORKERS = 10) ∧
      (env.EMBEDDING_GRACEFUL_SHUTDOWN_TIMEOUT = none →
        cfg.GRACEFUL_SHUTDOWN_TIMEOUT = 30) ∧
      (env.EMBEDDING_CRT = none → cfg.EMBEDDING_CRT = "") ∧
      (env.EMBEDDING_KEY = none → cfg.EMBEDDING_KEY = "") ∧
      (mainRun (.ok ()) (.ok ()) env []).serverStarted = true := by
  obtain ⟨mw, hMW⟩ : ∃ n, pyInt (getenv env.EMBEDDING_MAX_WORKERS "10")
      = Except.ok n := by
    cases h : env.EMBEDDING_MAX_WORKERS with
    | none => exact ⟨10, rfl⟩
    | some s => simpa [getenv] using hmw s h
  obtain ⟨gt, hGT⟩ : ∃ n, pyInt
      (getenv env.EMBEDDING_GRACEFUL_SHUTDOWN_TIMEOUT "30") = Except.ok n := by
    cases h : env.EMBEDDING_GRACEFUL_SHUTDOWN_TIMEOUT with
    | none => exact ⟨30, rfl⟩
    | some s => simpa [getenv] using hgt s h
  obtain ⟨crt, hCRT⟩ : ∃ bs, b64decode (getenv env.EMBEDDING_CRT "")
      = Except.ok bs := by
    cases h : env.EMBEDDING_CRT with
    | none => exact ⟨[], rfl⟩
    | some s => simpa [getenv] using hcrt s h
  obtain ⟨key, hKEY⟩ : ∃ bs, b64decode (getenv env.EMBEDDING_KEY "")
      = Except.ok bs := by
    cases h : env.EMBEDDING_KEY with
    | none => exact ⟨[], rfl⟩
    | some s => simpa [getenv] using hkey s h
  have hcfg : loadConfig env = Except.ok
      { MODEL_NAME :=
          getenv env.EMBEDDING_MODEL_NAME
            "sentence-transformers/static-retrieval-mrl-en-v1"
        RERANKER_MODEL_NAME :=
          getenv env.EMBEDDING_RERANKER "cross-encoder/ms-marco-MiniLM-L6-v2"
        GRPC_PORT := getenv env.EMBEDDING_PORT ""
        MAX_WORKERS := mw
        GRACEFUL_SHUTDOWN_TIMEOUT := gt
        EMBEDDING_CRT := getenv env.EMBEDDING_CRT ""
        EMBEDDING_KEY := getenv env.EMBEDDING_KEY "" } := by
    unfold loadConfig
    rw [hMW, hGT]
  refine ⟨_, hcfg, ?_, ?_, ?_, ?_, ?_, ?_, ?_, ?_⟩
  · intro h
    simp [getenv, h]
  · intro h
    simp [getenv, h]
  · intro h
    simp [getenv, h]
  · intro h
    rw [h] at hMW
    show mw = 10
    have hten : pyInt (getenv (none : Option String) "10")
        = Except.ok (10 : Int) := rfl
    exact ((Except.ok.injEq _ _).mp (hten.symm.trans hMW)).symm
  · intro h
    rw [h] at hGT
    show gt = 30
    have hthirty : pyInt (getenv (none : Option String) "30")
        = Except.ok (30 : Int) := rfl
    exact ((Except.ok.injEq _ _).mp (hthirty.symm.trans hGT)).symm
  · intro h
    simp [getenv, h]
  · intro h
    simp [getenv, h]
  · have hbind : serveBind
        { MODEL_NAME :=
            getenv env.EMBEDDING_MODEL_NAME
              "sentence-transformers/static-retrieval-mrl-en-v1"
          RERANKER_MODEL_NAME :=
            getenv env.EMBEDDING_RERANKER "cross-encoder/ms-marco-MiniLM-L6-v2"
          GRPC_PORT := getenv env.EMBEDDING_PORT ""
          MAX_WORKERS := mw
          GRACEFUL_SHUTDOWN_TIMEOUT := gt
          EMBEDDING_CRT := getenv env.EMBEDDING_CRT ""
          EMBEDDING_KEY := getenv env.EMBEDDING_KEY "" } = Except.ok
        (Transport.tls crt key, bindAddress (getenv env.EMBEDDING_PORT "")) := by
      unfold serveBind
      simp only [hCRT, hKEY]
    simp [mainRun, hcfg, hbind, runSignals]

theorem config_defaults_optional_instance :
    ∃ cfg, loadConfig defaultEnv = Except.ok cfg ∧ cfg.MAX_WORKERS = 10 ∧
      cfg.GRACEFUL_SHUTDOWN_TIMEOUT = 30 ∧
      (mainRun (Except.ok ()) (Except.ok ()) defaultEnv []).serverStarted
        = true := by
  obtain ⟨cfg, h0, h1, h2, h3, h4, h5, h6, h7, h8⟩ :=
    config_defaults_optional defaultEnv
      (fun s h => by simp [defaultEnv] at h)
      (fun s h => by simp [defaultEnv] at h)
      (fun s h => by simp [defaultEnv] at h)
      (fun s h => by simp [defaultEnv] at h)
  exact ⟨cfg, h0, h4 rfl, h5 rfl, h8⟩

end EmbeddingServer
